import Mathlib

/-!
Verification development for the memeulacra batch meme-generation pipeline.

The Lean definitions below are shallow embeddings of the Python source:
  * `RateLimitInfo.should_wait`, `RateLimiter.should_wait_global`
      from `api/ai/rate_limiter.py`
  * `batch_generate_texts` from `api/ai/meme_ai_flow.py`
  * `normalize_text_choice`, `assign_uuids`, `persist_all`
      from `api/ai/meme_ai_flow.py` (generate_memes_for_uuids)
  * `repair_json` from `api/ai/json_repairer.py`
  * `wrap_text`, `calculate_optimal_font`, `render_outlined_text`,
    `add_text_at_coordinates` from `api/ai/text_overlay.py`

Timestamps are modelled as integer seconds; pixel measurements done by
PIL's `draw.textbbox` are abstracted into an explicit `Measure` record
(width and height of a rendered line at a given font size), so every
text-layout definition is parametric in the font metrics exactly where
the Python code calls into PIL.
-/

namespace Memeulacra

/-! ## Rate limiter (api/ai/rate_limiter.py) -/

/-- Embedding of the `RateLimitInfo` dataclass.  Reset times and the
creation timestamp are integer seconds on an absolute clock. -/
structure RateLimitInfo where
  requests_remaining : Int
  requests_reset : Int
  tokens_remaining : Int
  tokens_reset : Int
  input_tokens_remaining : Int
  input_tokens_reset : Int
  output_tokens_remaining : Int
  output_tokens_reset : Int
  retry_after : Int
  timestamp : Int
  deriving Repr, DecidableEq

/-- The list of wait times collected by `should_wait`: one entry
`reset - current_time` for every quota dimension whose remaining count
is at or below zero, in the order the Python code checks them. -/
def RateLimitInfo.waitTimes (info : RateLimitInfo) (now : Int) : List Int :=
  (if info.requests_remaining ≤ 0 then [info.requests_reset - now] else []) ++
  (if info.tokens_remaining ≤ 0 then [info.tokens_reset - now] else []) ++
  (if info.input_tokens_remaining ≤ 0 then [info.input_tokens_reset - now] else []) ++
  (if info.output_tokens_remaining ≤ 0 then [info.output_tokens_reset - now] else [])

/-- Embedding of `RateLimitInfo.should_wait`: if any quota dimension is
exhausted, return `(true, max(0, max(wait_times)))`, else `(false, 0)`.
Python's `max` over a non-empty list is the left fold of `max` over the
tail starting from the head. -/
def RateLimitInfo.should_wait (info : RateLimitInfo) (now : Int) : Bool × Int :=
  match info.waitTimes now with
  | [] => (false, 0)
  | w :: ws => (true, max 0 (ws.foldl max w))

/-- Embedding of `RateLimiter.should_wait_global`: `none` models the
state before any provider response has been recorded. -/
def RateLimiter.should_wait_global (info : Option RateLimitInfo) (now : Int) :
    Bool × Int :=
  match info with
  | none => (false, 0)
  | some i => i.should_wait now

/-! ## Fan-out text generation (api/ai/meme_ai_flow.py, batch_generate_texts)

`asyncio.gather(..., return_exceptions=True)` delivers one outcome per
submitted task, in submission order; a task's outcome is either its
value or the exception it raised.  We model the awaited outcomes as an
`Except` list aligned with the template list, and the fan-in loop as
the filter that drops exception outcomes and keeps `(template, result)`
pairs. -/

/-- Embedding of `batch_generate_texts`: zip the submitted templates
with their awaited outcomes (submission order) and keep the successful
ones, pairing each with its template; exception outcomes are logged and
skipped (`continue`). -/
def batch_generate_texts {T E V : Type} (templates : List T)
    (outcomes : List (Except E V)) : List (T × V) :=
  (templates.zip outcomes).filterMap fun tr =>
    match tr.2 with
    | .ok v => some (tr.1, v)
    | .error _ => none

/-! ## Caption-key normalization and uuid assignment
    (api/ai/meme_ai_flow.py, generate_memes_for_uuids) -/

/-- One entry of the `generated_memes` pool: a template id together with
the normalized 7-slot caption array. -/
structure GeneratedMeme where
  template_id : Nat
  text_boxes : List (Option String)
  deriving Repr, DecidableEq, Inhabited

/-- One entry of `uuid_memes`: a requested output identifier together
with its assigned template/captions; `cdn_url` is absent (`none`) until
`batch_process_images` fills it in. -/
structure UuidMeme where
  uuid : String
  template_id : Nat
  text_boxes : List (Option String)
  cdn_url : Option String
  deriving Repr, DecidableEq

/-- Embedding of the text-choice normalization loop: a generated text
choice is a string-keyed mapping (modelled as an association list); for
each box index `i` in 1..7, slot `i-1` takes the value under key
`"text<i>"` if that key is present, else the value under `"text_<i>"`,
else stays `None`. -/
def normalize_text_choice (choice : List (String × String)) : List (Option String) :=
  (List.range 7).map fun j =>
    match choice.lookup ("text" ++ toString (j + 1)) with
    | some v => some v
    | none => choice.lookup ("text_" ++ toString (j + 1))

/-- Embedding of the uuid-assignment loop: for each output identifier at
index `i`, pick `generated_memes[i % len(generated_memes)]` (the code
only reaches this loop with a non-empty pool; `getD` supplies a default
for the out-of-domain empty-pool case). -/
def assign_uuids (pool : List GeneratedMeme) (uuids : List String) : List UuidMeme :=
  ((List.range uuids.length).zip uuids).map fun iu =>
    let meme := pool.getD (iu.1 % pool.length) default
    ⟨iu.2, meme.template_id, meme.text_boxes, none⟩

/-! ## JSON repair (api/ai/json_repairer.py) -/

/-- Python's `str.strip()`: drop whitespace from both ends. -/
def pyStrip (s : String) : String :=
  String.mk
    (((s.toList.dropWhile fun c => c.isWhitespace).reverse.dropWhile
        fun c => c.isWhitespace).reverse)

/-- Embedding of `JsonRepairer.repair_json`.  The single call to the
completion client (`RateLimiter.make_anthropic_request`) is modelled by
the one `completion` outcome the function consumes: `Except.error`
models the request itself raising, `Except.ok text` models the
returned response text.  JSON validity (`_is_valid_json`, i.e.
`json.loads` succeeding) is abstracted as the predicate `jsonOk`.
The response text is stripped, re-validated, and returned only when the
re-parse succeeds; otherwise the wrapped repair failure is raised.
The definition consumes exactly one completion outcome: there is no
repair-of-repair recursion. -/
def repair_json (jsonOk : String → Bool) (completion : Except String String) :
    Except String String :=
  match completion with
  | .error e => .error ("Failed to repair JSON: " ++ e)
  | .ok text =>
    let fixed := pyStrip text
    if jsonOk fixed then .ok fixed
    else .error "Failed to repair JSON: Claude API returned invalid JSON"

/-! ## Persistence write-back (api/ai/meme_ai_flow.py, db_update_memes) -/

/-- The columns of the `memes` table touched by the final UPDATE pass. -/
structure DbMemeRow where
  template_id : Option Nat
  text_box_1 : Option String
  text_box_2 : Option String
  text_box_3 : Option String
  text_box_4 : Option String
  text_box_5 : Option String
  text_box_6 : Option String
  text_box_7 : Option String
  meme_cdn_url : Option String
  deriving Repr, DecidableEq

/-- Python truthiness of `meme.get("cdn_url")`: a missing/None value and
the empty string are falsy, any other string is truthy. -/
def truthyStr : Option String → Bool
  | none => false
  | some s => decide (s ≠ "")

/-- Embedding of one iteration of the persistence loop: an SQL UPDATE
keyed by the meme's uuid.  A row that does not exist is left absent
(UPDATE matches no row); the matching row gets its template id and all
seven caption columns overwritten, and additionally `meme_cdn_url` when
the slot has a truthy cdn url (the `if meme.get("cdn_url")` branch);
otherwise `meme_cdn_url` keeps its previous value. -/
def persist_step (store : String → Option DbMemeRow) (meme : UuidMeme) :
    String → Option DbMemeRow :=
  fun id =>
    match store id with
    | none => none
    | some row =>
      if id = meme.uuid then
        some { template_id := some meme.template_id
               text_box_1 := meme.text_boxes.getD 0 none
               text_box_2 := meme.text_boxes.getD 1 none
               text_box_3 := meme.text_boxes.getD 2 none
               text_box_4 := meme.text_boxes.getD 3 none
               text_box_5 := meme.text_boxes.getD 4 none
               text_box_6 := meme.text_boxes.getD 5 none
               text_box_7 := meme.text_boxes.getD 6 none
               meme_cdn_url :=
                 if truthyStr meme.cdn_url then meme.cdn_url else row.meme_cdn_url }
      else some row

/-- Embedding of the whole persistence pass: the loop body applied to
every slot in order. -/
def persist_all (store : String → Option DbMemeRow) (memes : List UuidMeme) :
    String → Option DbMemeRow :=
  memes.foldl persist_step store

/-! ## Text overlay engine (api/ai/text_overlay.py)

PIL font metrics (`draw.textbbox((0,0), line, font)`) are the only
external dependency of the layout code; they are abstracted as a
`Measure`: the pixel width and pixel height of one rendered line of
text at a given font size.  Every layout definition is parametric in
the measure, exactly where the Python code calls into PIL. -/

/-- Fallback font size used when no size in range fits (`MIN_FALLBACK_FONT_SIZE`). -/
def MIN_FALLBACK_FONT_SIZE : Nat := 40

/-- Maximum font size tried by the fit search (`MAX_FONT_SIZE`). -/
def MAX_FONT_SIZE : Nat := 200

/-- Minimum font size tried by the fit search (`MIN_FONT_SIZE`). -/
def MIN_FONT_SIZE : Nat := 10

/-- Abstracted font metrics: `lineW s l` / `lineH s l` are the width and
height that `draw.textbbox` reports for line `l` at font size `s`. -/
structure Measure where
  lineW : Nat → String → ℚ
  lineH : Nat → String → ℚ

/-- Python's `' '.join(words)`. -/
def joinWords (ws : List String) : String := String.intercalate " " ws

/-- Accumulator pass for `wordsOf`: `cur` holds the reversed characters
of the word currently being read. -/
def wordsOfAux : List Char → List Char → List String
  | [], cur => if cur.isEmpty then [] else [String.mk cur.reverse]
  | c :: cs, cur =>
    if c.isWhitespace then
      if cur.isEmpty then wordsOfAux cs []
      else String.mk cur.reverse :: wordsOfAux cs []
    else wordsOfAux cs (c :: cur)

/-- Python's `text.split()`: split on whitespace runs, no empty pieces. -/
def wordsOf (text : String) : List String := wordsOfAux text.toList []

/-- The word loop of `wrap_text`, with `cur` the `current_line`
accumulator: try adding the word to the current line; keep it there if
the joined test line fits in `maxW`, otherwise flush the current line
(when non-empty) and start a new line with the word; at the end flush
the remaining current line. -/
def wrapAux (w : String → ℚ) (maxW : ℚ) (cur : List String) :
    List String → List String
  | [] => if cur.isEmpty then [] else [joinWords cur]
  | word :: rest =>
    if w (joinWords (cur ++ [word])) ≤ maxW then
      wrapAux w maxW (cur ++ [word]) rest
    else if cur.isEmpty then
      wrapAux w maxW [word] rest
    else
      joinWords cur :: wrapAux w maxW [word] rest

/-- Embedding of `TextOverlay.wrap_text` at font size `s`. -/
def wrap_text (m : Measure) (s : Nat) (maxW : ℚ) (text : String) : List String :=
  wrapAux (m.lineW s) maxW [] (wordsOf text)

/-- The height computation inside `calculate_optimal_font`: the sum of
the wrapped lines' measured heights, plus — when there are at least two
lines — `(n-1)` gaps of 20% of `line_height`, where `line_height` is the
Python loop variable after the measuring loop, i.e. the height of the
LAST wrapped line. -/
def total_height (m : Measure) (s : Nat) (lines : List String) : ℚ :=
  let hs := lines.map (m.lineH s)
  if 1 < lines.length then
    hs.sum + ((lines.length : ℚ) - 1) * (hs.getLastD 0 * (1 / 5))
  else hs.sum

/-- The acceptance test of the fit search at font size `s`: wrap the
text to the box width and require the total height inflated by the 20%
safety margin (`* 1.2`) to fit within the box height. -/
def fitsAt (m : Measure) (text : String) (bw bh : Int) (s : Nat) : Bool :=
  decide (total_height m s (wrap_text m s (bw : ℚ) text) * (6 / 5) ≤ (bh : ℚ))

/-- The size loop of `calculate_optimal_font`: try sizes `start`,
`start-1`, ... down to `MIN_FONT_SIZE`, returning the first (hence
largest) size that fits, `none` if no size in range fits. -/
def search_font (m : Measure) (text : String) (bw bh : Int) : Nat → Option Nat
  | 0 => none
  | s + 1 =>
    if s + 1 < MIN_FONT_SIZE then none
    else if fitsAt m text bw bh (s + 1) then some (s + 1)
    else search_font m text bw bh s

/-- Embedding of `TextOverlay.calculate_optimal_font`: returns the
chosen font size, the wrapped lines at that size and the computed total
height; when no size in `[MIN_FONT_SIZE, maxFont]` fits, falls back to
`MIN_FALLBACK_FONT_SIZE`, re-wrapping at the fallback size and
returning a total height of 0. -/
def calculate_optimal_font (m : Measure) (text : String) (bw bh : Int)
    (maxFont : Nat) : Nat × List String × ℚ :=
  match search_font m text bw bh maxFont with
  | some s => (s, wrap_text m s (bw : ℚ) text, total_height m s (wrap_text m s (bw : ℚ) text))
  | none => (MIN_FALLBACK_FONT_SIZE, wrap_text m MIN_FALLBACK_FONT_SIZE (bw : ℚ) text, 0)

/-- One drawn line of text: its content, left x, and top y (the y
advances by fractional spacing, so it is rational). -/
structure RenderedLine where
  line : String
  x : Int
  y : ℚ
  deriving Repr, DecidableEq

/-- The line loop of `render_outlined_text`: draw each line at the
box's left `x`, advancing y by `line_height + line_spacing` (both
computed once, from the FIRST wrapped line). -/
def layoutLines (x : Int) (step : ℚ) (y0 : ℚ) : List String → List RenderedLine
  | [] => []
  | l :: rest => ⟨l, x, y0⟩ :: layoutLines x step (y0 + step) rest

/-- Embedding of `TextOverlay.render_outlined_text`: compute the optimal
font, then read `text_lines[0]` to measure `line_height` — an
`IndexError` when the wrapped-line list is empty — and lay the lines
out top-anchored at the box position. -/
def render_outlined_text (m : Measure) (text : String) (pos : Int × Int)
    (size : Int × Int) : Except String (List RenderedLine) :=
  let r := calculate_optimal_font m text size.1 size.2 MAX_FONT_SIZE
  match r.2.1.head? with
  | none => .error "IndexError: list index out of range"
  | some test_line =>
    let line_height := m.lineH r.1 test_line
    let line_spacing := line_height * (1 / 5)
    .ok (layoutLines pos.1 (line_height + line_spacing) (pos.2 : ℚ) r.2.1)

/-- One raw coordinate dictionary: each of the four required keys may be
missing. -/
structure Coord where
  x : Option ℚ
  y : Option ℚ
  width : Option ℚ
  height : Option ℚ
  deriving Repr, DecidableEq

/-- The errors `add_text_at_coordinates` can raise. -/
inductive OverlayError where
  | noCoords
  | noTexts
  | mismatch (nTexts nCoords : Nat)
  | missingKeys (box : Nat)
  | renderError (box : Nat) (msg : String)
  deriving Repr, DecidableEq

/-- Python's `int(...)` on a float: truncation toward zero. -/
def intTrunc (q : ℚ) : Int := if q < 0 then q.ceil else q.floor

/-- Percentage-to-pixel conversion `int((percent / 100) * dimension)`. -/
def toPx (percent : ℚ) (dim : Int) : Int := intTrunc (percent / 100 * (dim : ℚ))

/-- The per-box loop of `add_text_at_coordinates` (`i` is the 0-based
loop index): skip empty texts, raise on a coordinate dictionary missing
one of the four required keys, convert percentages to pixels and render;
a render failure is wrapped and raised (aborting the loop, like the
re-raised RuntimeError). -/
def add_text_aux (m : Measure) (W H : Int) :
    Nat → List (String × Coord) → Except OverlayError (List (List RenderedLine))
  | _, [] => .ok []
  | i, (text, coord) :: rest =>
    if text = "" then add_text_aux m W H (i + 1) rest
    else
      match coord.x, coord.y, coord.width, coord.height with
      | some xp, some yp, some wp, some hp =>
        match render_outlined_text m text (toPx xp W, toPx yp H) (toPx wp W, toPx hp H) with
        | .error msg => .error (.renderError (i + 1) msg)
        | .ok out =>
          match add_text_aux m W H (i + 1) rest with
          | .error e => .error e
          | .ok outs => .ok (out :: outs)
      | _, _, _, _ => .error (.missingKeys (i + 1))

/-- Embedding of `TextOverlay.add_text_at_coordinates` on a base image
of pixel size `W × H`: validate that the coordinate list is non-empty,
that the text list is non-empty, and that the two lists have equal
length (raising `ValueError` in exactly those cases, in that order),
then process each text/coordinate pair. -/
def add_text_at_coordinates (m : Measure) (W H : Int) (texts : List String)
    (coords : List Coord) : Except OverlayError (List (List RenderedLine)) :=
  if coords.isEmpty then .error .noCoords
  else if texts.isEmpty then .error .noTexts
  else if texts.length ≠ coords.length then .error (.mismatch texts.length coords.length)
  else add_text_aux m W H 0 (texts.zip coords)

/-! ## Concrete fixtures for witnesses and counterexamples -/

/-- A concrete font-metric model for concrete evaluations: the width of
a line is `fontSize * (number of characters)`, the height of a line is
`fontSize` (the height `textbbox` reports is glyph-content dependent in
PIL, but is the same for lines drawn with the same font size in this
model). -/
def mDemo : Measure :=
  { lineW := fun s l => (s : ℚ) * (l.length : ℚ)
    lineH := fun s _ => (s : ℚ) }

/-- A concrete font-metric model with content-dependent line heights,
as `textbbox` reports them: a line consisting of a single period has a
tenth of the ink height of other lines at the same font size; widths as
in `mDemo`. -/
def mVar : Measure :=
  { lineW := fun s l => (s : ℚ) * (l.length : ℚ)
    lineH := fun s l => if l = "." then (s : ℚ) * (1 / 10) else (s : ℚ) }

/-- The snapshot of the spec's rate-gate example: 0 requests remaining
resetting 5 seconds after `now = 100`, plenty of tokens left. -/
def exInfo : RateLimitInfo :=
  { requests_remaining := 0, requests_reset := 105
    tokens_remaining := 100, tokens_reset := 300
    input_tokens_remaining := 50, input_tokens_reset := 300
    output_tokens_remaining := 50, output_tokens_reset := 300
    retry_after := 0, timestamp := 90 }

/-- A snapshot whose only exhausted dimension (requests) has its reset
3 seconds in the past at `now = 100`. -/
def pastInfo : RateLimitInfo :=
  { requests_remaining := 0, requests_reset := 97
    tokens_remaining := 100, tokens_reset := 200
    input_tokens_remaining := 5, input_tokens_reset := 200
    output_tokens_remaining := 5, output_tokens_reset := 200
    retry_after := 0, timestamp := 90 }

/-- A pre-existing database row for persistence fixtures. -/
def demoRow : DbMemeRow :=
  { template_id := none
    text_box_1 := none, text_box_2 := none, text_box_3 := none
    text_box_4 := none, text_box_5 := none, text_box_6 := none
    text_box_7 := none
    meme_cdn_url := some "https://old.example/img.jpg" }

/-- A two-row store keyed by uuid for persistence fixtures. -/
def demoStore : String → Option DbMemeRow :=
  fun id => if id = "u1" ∨ id = "u2" then some demoRow else none

/-- A slot that failed its render/upload: no cdn url. -/
def demoMemeNoCdn : UuidMeme :=
  { uuid := "u1", template_id := 7
    text_boxes := [some "top", some "bottom", none, none, none, none, none]
    cdn_url := none }

/-- A slot whose upload succeeded. -/
def demoMemeCdn : UuidMeme :=
  { uuid := "u2", template_id := 9
    text_boxes := [some "hi", none, none, none, none, none, none]
    cdn_url := some "https://cdn.example/u2.jpg" }

/-! ## Theorems -/

set_option maxHeartbeats 2000000
set_option maxRecDepth 100000

/-- Fan-in over all-successful outcomes keeps every pair, in order. -/
lemma batch_generate_texts_all_ok {T E V : Type} (ts : List T) (vs : List V) :
    batch_generate_texts ts (vs.map (Except.ok (ε := E))) = ts.zip vs := by
  induction ts generalizing vs with
  | nil => simp [batch_generate_texts]
  | cons t ts ih =>
    cases vs with
    | nil => simp [batch_generate_texts]
    | cons v vs =>
      simpa [batch_generate_texts, List.zip_cons_cons] using ih vs

/-- Claim C1: in a fan-out of `N` text-generation tasks where exactly
one task (here the one for template `t`) fails with an exception and
the other `N-1` succeed, the fan-in pool contains exactly the `N-1`
successful `(template, variant)` pairs, in submission order; the
failing task's pair is absent and does not prevent any sibling's result
from appearing.  Each submitted task contributes exactly one awaited
outcome, so no task is retried. -/
theorem batch_generate_texts_single_failure {T E V : Type}
    (ts1 ts2 : List T) (t : T) (vs1 vs2 : List V) (e : E)
    (h1 : ts1.length = vs1.length) (h2 : ts2.length = vs2.length) :
    batch_generate_texts (ts1 ++ t :: ts2)
      (vs1.map Except.ok ++ Except.error e :: vs2.map Except.ok) =
    ts1.zip vs1 ++ ts2.zip vs2 := by
  induction ts1 generalizing vs1 with
  | nil =>
    cases vs1 with
    | nil =>
      simpa [batch_generate_texts, List.zip_cons_cons] using
        batch_generate_texts_all_ok (E := E) ts2 vs2
    | cons v vs => simp at h1
  | cons a ts1 ih =>
    cases vs1 with
    | nil => simp at h1
    | cons b vs1 =>
      have h1' : ts1.length = vs1.length := by simpa using h1
      simpa [batch_generate_texts, List.zip_cons_cons] using ih vs1 h1'

/-- Witness for C1: three tasks, the middle one failing, yield the
first and third results in order. -/
theorem batch_generate_texts_single_failure_witness :
    batch_generate_texts [1, 2, 3]
      ([10].map Except.ok ++ Except.error "boom" :: [30].map Except.ok) =
      [(1, 10), (3, 30)] :=
  batch_generate_texts_single_failure [1] [3] 2 [10] [30] "boom" rfl rfl

/-- Claim C2: with a non-empty pool of generated variants, the slot for
the identifier at index `i` receives pool entry `i % len(pool)`; the
result has exactly one entry per requested identifier, and two slots
whose indices are congruent modulo the pool size receive the identical
`(template, captions)` pair. -/
theorem assign_uuids_cyclic (pool : List GeneratedMeme) (uuids : List String)
    (hp : pool ≠ []) :
    (assign_uuids pool uuids).length = uuids.length ∧
    (∀ i, i < uuids.length →
      (assign_uuids pool uuids).getD i ⟨"", 0, [], none⟩ =
        ⟨uuids.getD i "", (pool.getD (i % pool.length) default).template_id,
         (pool.getD (i % pool.length) default).text_boxes, none⟩) ∧
    (∀ i j, i < uuids.length → j < uuids.length → i % pool.length = j % pool.length →
      ((assign_uuids pool uuids).getD i ⟨"", 0, [], none⟩).template_id =
        ((assign_uuids pool uuids).getD j ⟨"", 0, [], none⟩).template_id ∧
      ((assign_uuids pool uuids).getD i ⟨"", 0, [], none⟩).text_boxes =
        ((assign_uuids pool uuids).getD j ⟨"", 0, [], none⟩).text_boxes) := by
  have hlen : (assign_uuids pool uuids).length = uuids.length := by
    simp [assign_uuids]
  have hpt : ∀ i, i < uuids.length →
      (assign_uuids pool uuids).getD i ⟨"", 0, [], none⟩ =
        ⟨uuids.getD i "", (pool.getD (i % pool.length) default).template_id,
         (pool.getD (i % pool.length) default).text_boxes, none⟩ := by
    intro i hi
    have hi' : i < (assign_uuids pool uuids).length := by rw [hlen]; exact hi
    rw [List.getD_eq_getElem _ _ hi']
    have hz : i < ((List.range uuids.length).zip uuids).length := by
      simpa using hi
    simp [assign_uuids, List.getElem_zip, List.getD_eq_getElem _ _ hi,
      List.getElem?_eq_getElem hi]
  refine ⟨hlen, hpt, ?_⟩
  intro i j hi hj hmod
  rw [hpt i hi, hpt j hj, hmod]
  exact ⟨rfl, rfl⟩

/-- Witness for C2: 3 generated variants, 7 requested identifiers —
slots 0 and 3 receive the identical template and captions, and the
result has 7 entries. -/
theorem assign_uuids_cyclic_witness :
    (assign_uuids
        [⟨1, [some "a"]⟩, ⟨2, [some "b"]⟩, ⟨3, [some "c"]⟩]
        ["s0", "s1", "s2", "s3", "s4", "s5", "s6"]).length = 7 ∧
    ((assign_uuids
        [⟨1, [some "a"]⟩, ⟨2, [some "b"]⟩, ⟨3, [some "c"]⟩]
        ["s0", "s1", "s2", "s3", "s4", "s5", "s6"]).getD 0
          ⟨"", 0, [], none⟩).template_id =
      ((assign_uuids
        [⟨1, [some "a"]⟩, ⟨2, [some "b"]⟩, ⟨3, [some "c"]⟩]
        ["s0", "s1", "s2", "s3", "s4", "s5", "s6"]).getD 3
          ⟨"", 0, [], none⟩).template_id := by
  have h := assign_uuids_cyclic
    [⟨1, [some "a"]⟩, ⟨2, [some "b"]⟩, ⟨3, [some "c"]⟩]
    ["s0", "s1", "s2", "s3", "s4", "s5", "s6"] (by decide)
  exact ⟨h.1, (h.2.2 0 3 (by decide) (by decide) (by decide)).1⟩

/-- Any error raised by the per-box loop is a missing-keys error or a
wrapped render error: the three list-validation errors are raised only
by the prelude of `add_text_at_coordinates`. -/
lemma add_text_aux_error_shape (m : Measure) (W H : Int) :
    ∀ (ps : List (String × Coord)) (i : Nat) (e : OverlayError),
      add_text_aux m W H i ps = .error e →
      (∃ b, e = .missingKeys b) ∨ (∃ b msg, e = .renderError b msg) := by
  intro ps
  induction ps with
  | nil => intro i e h; simp [add_text_aux] at h
  | cons p rest ih =>
    intro i e h
    obtain ⟨t, c⟩ := p
    rw [add_text_aux] at h
    split at h
    · exact ih (i + 1) e h
    · split at h
      · split at h
        · cases h
          exact Or.inr ⟨_, _, rfl⟩
        · split at h
          · cases h
            exact ih (i + 1) _ (by assumption)
          · cases h
      · cases h
        exact Or.inl ⟨_, rfl⟩

/-- Claim C3: `add_text_at_coordinates` raises a validation error when
the box list is empty, when the caption list is empty, and when the two
lists have different lengths; when both lists are non-empty and of equal
length, whatever else happens, none of those three validation errors is
raised. -/
theorem add_text_at_coordinates_validation (m : Measure) (W H : Int)
    (texts : List String) (coords : List Coord) :
    (coords = [] →
      add_text_at_coordinates m W H texts coords = .error .noCoords) ∧
    (coords ≠ [] → texts = [] →
      add_text_at_coordinates m W H texts coords = .error .noTexts) ∧
    (coords ≠ [] → texts ≠ [] → texts.length ≠ coords.length →
      add_text_at_coordinates m W H texts coords =
        .error (.mismatch texts.length coords.length)) ∧
    (coords ≠ [] → texts ≠ [] → texts.length = coords.length →
      add_text_at_coordinates m W H texts coords ≠ .error .noCoords ∧
      add_text_at_coordinates m W H texts coords ≠ .error .noTexts ∧
      ∀ a b, add_text_at_coordinates m W H texts coords ≠ .error (.mismatch a b)) := by
  refine ⟨?_, ?_, ?_, ?_⟩
  · intro hc; simp [add_text_at_coordinates, hc]
  · intro hc ht
    simp [add_text_at_coordinates, ht, List.isEmpty_iff, hc]
  · intro hc ht hne
    simp [add_text_at_coordinates, List.isEmpty_iff, hc, ht, hne]
  · intro hc ht heq
    have hrw : add_text_at_coordinates m W H texts coords =
        add_text_aux m W H 0 (texts.zip coords) := by
      simp [add_text_at_coordinates, List.isEmpty_iff, hc, ht, heq]
    rw [hrw]
    refine ⟨?_, ?_, ?_⟩
    · intro h
      rcases add_text_aux_error_shape m W H (texts.zip coords) 0 _ h with ⟨b, hb⟩ | ⟨b, msg, hb⟩ <;>
        simp at hb
    · intro h
      rcases add_text_aux_error_shape m W H (texts.zip coords) 0 _ h with ⟨b, hb⟩ | ⟨b, msg, hb⟩ <;>
        simp at hb
    · intro a b h
      rcases add_text_aux_error_shape m W H (texts.zip coords) 0 _ h with ⟨b', hb⟩ | ⟨b', msg, hb⟩ <;>
        simp at hb

/-- Witness for C3: one caption and one well-formed box pass the
validation prelude; mismatched or empty lists raise. -/
theorem add_text_at_coordinates_validation_witness :
    (add_text_at_coordinates mDemo 100 100 ["hi"] [] = .error .noCoords) ∧
    (add_text_at_coordinates mDemo 100 100 []
        [⟨some 10, some 10, some 50, some 20⟩] = .error .noTexts) ∧
    (add_text_at_coordinates mDemo 100 100 ["hi", "yo"]
        [⟨some 10, some 10, some 50, some 20⟩] = .error (.mismatch 2 1)) ∧
    (add_text_at_coordinates mDemo 100 100 ["hi"]
        [⟨some 10, some 10, some 50, some 20⟩] ≠ .error .noCoords ∧
     add_text_at_coordinates mDemo 100 100 ["hi"]
        [⟨some 10, some 10, some 50, some 20⟩] ≠ .error .noTexts ∧
     ∀ a b, add_text_at_coordinates mDemo 100 100 ["hi"]
        [⟨some 10, some 10, some 50, some 20⟩] ≠ .error (.mismatch a b)) := by
  refine ⟨?_, ?_, ?_, ?_⟩
  · exact (add_text_at_coordinates_validation mDemo 100 100 ["hi"] []).1 rfl
  · exact (add_text_at_coordinates_validation mDemo 100 100 []
      [⟨some 10, some 10, some 50, some 20⟩]).2.1 (by simp) rfl
  · exact (add_text_at_coordinates_validation mDemo 100 100 ["hi", "yo"]
      [⟨some 10, some 10, some 50, some 20⟩]).2.2.1 (by simp) (by simp) (by decide)
  · exact (add_text_at_coordinates_validation mDemo 100 100 ["hi"]
      [⟨some 10, some 10, some 50, some 20⟩]).2.2.2 (by simp) (by simp) rfl

/-- Counterexample to C5 as stated: `pastInfo` has exactly one exhausted
dimension (requests, reset 3 seconds in the past at `now = 100`), so the
maximum over exhausted dimensions of (reset - now) is `-3`, but the
reported wait is the clamped `0`, not `-3`. -/
theorem should_wait_eq_max_counterexample :
    pastInfo.waitTimes 100 = [-3] ∧
    pastInfo.should_wait 100 = (true, 0) ∧
    (pastInfo.should_wait 100).2 ≠ -3 := by decide

/-- Claim C5 (amended: the wait equals the maximum over exhausted
dimensions of (reset - now), clamped below at 0): when no dimension is
at or below zero no wait is reported; when at least one is, the check
reports a wait whose duration is at least (reset - now) for every
exhausted dimension, and is either 0 or exactly one of those
differences. -/
theorem should_wait_spec (info : RateLimitInfo) (now : Int) :
    (¬(info.requests_remaining ≤ 0 ∨ info.tokens_remaining ≤ 0 ∨
        info.input_tokens_remaining ≤ 0 ∨ info.output_tokens_remaining ≤ 0) →
      info.should_wait now = (false, 0)) ∧
    ((info.requests_remaining ≤ 0 ∨ info.tokens_remaining ≤ 0 ∨
        info.input_tokens_remaining ≤ 0 ∨ info.output_tokens_remaining ≤ 0) →
      (info.should_wait now).1 = true ∧
      0 ≤ (info.should_wait now).2 ∧
      (info.requests_remaining ≤ 0 →
        info.requests_reset - now ≤ (info.should_wait now).2) ∧
      (info.tokens_remaining ≤ 0 →
        info.tokens_reset - now ≤ (info.should_wait now).2) ∧
      (info.input_tokens_remaining ≤ 0 →
        info.input_tokens_reset - now ≤ (info.should_wait now).2) ∧
      (info.output_tokens_remaining ≤ 0 →
        info.output_tokens_reset - now ≤ (info.should_wait now).2) ∧
      ((info.should_wait now).2 = 0 ∨
        (info.requests_remaining ≤ 0 ∧
          (info.should_wait now).2 = info.requests_reset - now) ∨
        (info.tokens_remaining ≤ 0 ∧
          (info.should_wait now).2 = info.tokens_reset - now) ∨
        (info.input_tokens_remaining ≤ 0 ∧
          (info.should_wait now).2 = info.input_tokens_reset - now) ∨
        (info.output_tokens_remaining ≤ 0 ∧
          (info.should_wait now).2 = info.output_tokens_reset - now))) := by
  unfold RateLimitInfo.should_wait RateLimitInfo.waitTimes
  by_cases h1 : info.requests_remaining ≤ 0 <;>
    by_cases h2 : info.tokens_remaining ≤ 0 <;>
      by_cases h3 : info.input_tokens_remaining ≤ 0 <;>
        by_cases h4 : info.output_tokens_remaining ≤ 0 <;>
          simp only [h1, h2, h3, h4, if_true, if_false, ite_true, ite_false,
            List.nil_append, List.append_nil, List.cons_append, List.foldl] <;>
        constructor <;> intro h <;> simp_all <;> omega

/-- Witness for C5: the spec's example snapshot (0 requests remaining,
reset 5 seconds ahead of `now = 100`, 100 tokens remaining) must wait,
and the reported wait is at least 5 seconds. -/
theorem should_wait_spec_witness :
    (exInfo.should_wait 100).1 = true ∧ 5 ≤ (exInfo.should_wait 100).2 := by
  have h := (should_wait_spec exInfo 100).2 (Or.inl (by decide))
  refine ⟨h.1, ?_⟩
  have h5 := h.2.2.1 (by decide)
  have : exInfo.requests_reset - 100 = 5 := by decide
  omega

/-- Claim C10: the wait reported by the pre-call check is never
negative — even when every exhausted dimension's reset lies in the past
the reported wait is exactly 0 — and before any snapshot has been
recorded the global check reports no wait at all. -/
theorem should_wait_global_nonneg (info? : Option RateLimitInfo) (now : Int) :
    0 ≤ (RateLimiter.should_wait_global info? now).2 ∧
    RateLimiter.should_wait_global none now = (false, 0) ∧
    (∀ info, info? = some info →
      (info.requests_remaining ≤ 0 → info.requests_reset ≤ now) →
      (info.tokens_remaining ≤ 0 → info.tokens_reset ≤ now) →
      (info.input_tokens_remaining ≤ 0 → info.input_tokens_reset ≤ now) →
      (info.output_tokens_remaining ≤ 0 → info.output_tokens_reset ≤ now) →
      (RateLimiter.should_wait_global info? now).2 = 0) := by
  refine ⟨?_, rfl, ?_⟩
  · cases info? with
    | none => simp [RateLimiter.should_wait_global]
    | some info =>
      show 0 ≤ (info.should_wait now).2
      unfold RateLimitInfo.should_wait
      rcases hw : info.waitTimes now with _ | ⟨w, ws⟩
      · simp
      · simp [le_max_left]
  · intro info hsome hr ht hi ho
    subst hsome
    show (info.should_wait now).2 = 0
    unfold RateLimitInfo.should_wait RateLimitInfo.waitTimes
    by_cases h1 : info.requests_remaining ≤ 0 <;>
      by_cases h2 : info.tokens_remaining ≤ 0 <;>
        by_cases h3 : info.input_tokens_remaining ≤ 0 <;>
          by_cases h4 : info.output_tokens_remaining ≤ 0 <;>
            simp only [h1, h2, h3, h4, if_true, if_false, ite_true, ite_false,
              List.nil_append, List.append_nil, List.cons_append, List.foldl] <;>
          simp_all <;> omega

/-- Witness for C10: a recorded snapshot whose only exhausted
dimension reset 3 seconds ago yields a wait of exactly 0, and the
never-recorded state yields no wait. -/
theorem should_wait_global_nonneg_witness :
    0 ≤ (RateLimiter.should_wait_global (some pastInfo) 100).2 ∧
    RateLimiter.should_wait_global none 100 = (false, 0) ∧
    (RateLimiter.should_wait_global (some pastInfo) 100).2 = 0 := by
  have h := should_wait_global_nonneg (some pastInfo) 100
  exact ⟨h.1, h.2.1, h.2.2 pastInfo rfl (fun _ => by decide) (fun hc => by simp [pastInfo] at hc)
    (fun hc => by simp [pastInfo] at hc) (fun hc => by simp [pastInfo] at hc)⟩

/-- Claim C7: normalization of a generated text choice produces exactly
7 slots; for box index `i` in 1..7, slot `i-1` is the value under key
`"text<i>"` when that key is present, else the value under `"text_<i>"`
when that key is present, else `none`. -/
theorem normalize_text_choice_spec (choice : List (String × String)) :
    (normalize_text_choice choice).length = 7 ∧
    ∀ i, 1 ≤ i → i ≤ 7 →
      (∀ v, choice.lookup ("text" ++ toString i) = some v →
        (normalize_text_choice choice).getD (i - 1) none = some v) ∧
      (choice.lookup ("text" ++ toString i) = none →
        (normalize_text_choice choice).getD (i - 1) none =
          choice.lookup ("text_" ++ toString i)) := by
  have hpt : ∀ j, j < 7 →
      (normalize_text_choice choice).getD j none =
        match choice.lookup ("text" ++ toString (j + 1)) with
        | some v => some v
        | none => choice.lookup ("text_" ++ toString (j + 1)) := by
    intro j hj
    have hj' : j < (normalize_text_choice choice).length := by
      simpa [normalize_text_choice] using hj
    rw [List.getD_eq_getElem _ _ hj']
    simp [normalize_text_choice]
  refine ⟨by simp [normalize_text_choice], ?_⟩
  intro i h1 h7
  have hi : i - 1 < 7 := by omega
  have hieq : i - 1 + 1 = i := by omega
  constructor
  · intro v hv
    rw [hpt (i - 1) hi, hieq, hv]
  · intro hnone
    rw [hpt (i - 1) hi, hieq, hnone]

/-- Witness for C7: a choice supplying box 1 in the underscore-free
spelling and box 2 in the underscore spelling fills slots 0 and 1 with
those values and leaves slot 2 empty. -/
theorem normalize_text_choice_spec_witness :
    (normalize_text_choice [("text1", "A"), ("text_2", "B")]).getD 0 none = some "A" ∧
    (normalize_text_choice [("text1", "A"), ("text_2", "B")]).getD 1 none = some "B" ∧
    (normalize_text_choice [("text1", "A"), ("text_2", "B")]).getD 2 none = none ∧
    (normalize_text_choice [("text1", "A"), ("text_2", "B")]).length = 7 := by
  have h := normalize_text_choice_spec [("text1", "A"), ("text_2", "B")]
  refine ⟨?_, ?_, ?_, h.1⟩
  · exact (h.2 1 (by decide) (by decide)).1 "A" (by decide)
  · have := (h.2 2 (by decide) (by decide)).2 (by decide)
    rw [this]; decide
  · have := (h.2 3 (by decide) (by decide)).2 (by decide)
    rw [this]; decide

/-- Claim C8: the structured-repair operation consumes a single
completion outcome (no repair-of-repair recursion is possible in
`repair_json`); it re-parses the stripped repaired text, returns it
exactly when the re-parse succeeds, fails with the repair error when
the repaired text is still invalid, and never returns a string that
does not parse. -/
theorem repair_json_spec (jsonOk : String → Bool)
    (completion : Except String String) :
    (∀ s, repair_json jsonOk completion = .ok s → jsonOk s = true) ∧
    (∀ text, completion = .ok text → jsonOk (pyStrip text) = true →
      repair_json jsonOk completion = .ok (pyStrip text)) ∧
    (∀ text, completion = .ok text → jsonOk (pyStrip text) = false →
      repair_json jsonOk completion =
        .error "Failed to repair JSON: Claude API returned invalid JSON") ∧
    (∀ e, completion = .error e →
      repair_json jsonOk completion = .error ("Failed to repair JSON: " ++ e)) := by
  refine ⟨?_, ?_, ?_, ?_⟩
  · intro s hs
    cases completion with
    | error e => simp [repair_json] at hs
    | ok text =>
      by_cases h : jsonOk (pyStrip text)
      · simp only [repair_json, h, if_true, ite_true] at hs
        cases hs
        exact h
      · simp [repair_json, h] at hs
  · intro text hc h
    subst hc
    simp [repair_json, h]
  · intro text hc h
    subst hc
    simp [repair_json, h]
  · intro e hc
    subst hc
    simp [repair_json]

/-- Witness for C8: with a validity predicate accepting only the exact
string of braces, a response that strips to it is returned stripped,
a response that does not is rejected with the repair error, and a
failing completion surfaces as a repair error. -/
theorem repair_json_spec_witness :
    repair_json (fun s => s = "[1]") (.ok "  [1]  ") = .ok "[1]" ∧
    repair_json (fun s => s = "[1]") (.ok "nope") =
      .error "Failed to repair JSON: Claude API returned invalid JSON" ∧
    repair_json (fun s => s = "[1]") (.error "boom") =
      .error ("Failed to repair JSON: " ++ "boom") := by
  have h := repair_json_spec (fun s => decide (s = "[1]")) (.ok "  [1]  ")
  have h2 := repair_json_spec (fun s => decide (s = "[1]")) (.ok "nope")
  have h3 := repair_json_spec (fun s => decide (s = "[1]")) (.error "boom")
  refine ⟨?_, ?_, h3.2.2.2 "boom" rfl⟩
  · have := h.2.1 "  [1]  " rfl (by decide)
    rw [this]
    have hs : pyStrip "  [1]  " = "[1]" := by decide
    rw [hs]
  · exact h2.2.2.1 "nope" rfl (by decide)

/-- One UPDATE leaves every row with a different key unchanged. -/
lemma persist_step_other (store : String → Option DbMemeRow) (m : UuidMeme)
    (id : String) (h : m.uuid ≠ id) : persist_step store m id = store id := by
  unfold persist_step
  cases store id with
  | none => rfl
  | some row =>
    have hne : ¬(id = m.uuid) := fun hc => h hc.symm
    simp [hne]

/-- A persistence pass over slots none of which carries the key leaves
the row at that key unchanged. -/
lemma persist_all_other (memes : List UuidMeme) :
    ∀ (store : String → Option DbMemeRow) (id : String),
      (∀ m ∈ memes, m.uuid ≠ id) → persist_all store memes id = store id := by
  induction memes with
  | nil => intro store id _; rfl
  | cons m rest ih =>
    intro store id h
    have hstep : persist_step store m id = store id :=
      persist_step_other store m id (h m (by simp))
    have := ih (persist_step store m) id (fun m' hm' => h m' (by simp [hm']))
    simpa [persist_all, hstep] using this

/-- Claim C6: in the final persistence pass, every slot is written back
keyed by its output identifier, including slots with no image
reference: the row of a slot in the batch (over pairwise distinct
identifiers, each with a pre-existing row and no degenerate empty-string
url) ends up holding the slot's template id and all seven caption
fields; its cdn-url column holds the slot's image reference when one is
present, and keeps its previous value — the slot is not dropped — when
the reference is null. -/
theorem persist_all_spec (store : String → Option DbMemeRow)
    (memes : List UuidMeme) (meme : UuidMeme) (row₀ : DbMemeRow)
    (hmem : meme ∈ memes) (hnodup : (memes.map UuidMeme.uuid).Nodup)
    (hrow : store meme.uuid = some row₀) (hne : meme.cdn_url ≠ some "") :
    persist_all store memes meme.uuid =
      some { template_id := some meme.template_id
             text_box_1 := meme.text_boxes.getD 0 none
             text_box_2 := meme.text_boxes.getD 1 none
             text_box_3 := meme.text_boxes.getD 2 none
             text_box_4 := meme.text_boxes.getD 3 none
             text_box_5 := meme.text_boxes.getD 4 none
             text_box_6 := meme.text_boxes.getD 5 none
             text_box_7 := meme.text_boxes.getD 6 none
             meme_cdn_url :=
               if meme.cdn_url.isSome then meme.cdn_url else row₀.meme_cdn_url } := by
  obtain ⟨l1, l2, rfl⟩ := List.append_of_mem hmem
  have hsplit := List.nodup_append.mp
    (show (l1.map UuidMeme.uuid ++ meme.uuid :: l2.map UuidMeme.uuid).Nodup by
      simpa using hnodup)
  have hn1 : ∀ m ∈ l1, m.uuid ≠ meme.uuid := by
    intro m hm hc
    exact hsplit.2.2 (List.mem_map_of_mem _ hm) (by simp [hc])
  have hn2 : ∀ m ∈ l2, m.uuid ≠ meme.uuid := by
    intro m hm hc
    exact (List.nodup_cons.mp hsplit.2.1).1
      (by rw [← hc]; exact List.mem_map_of_mem _ hm)
  have hfold : persist_all store (l1 ++ meme :: l2) meme.uuid =
      persist_all (persist_step (persist_all store l1) meme) l2 meme.uuid := by
    simp [persist_all, List.foldl_append]
  rw [hfold]
  have hl1 : persist_all store l1 meme.uuid = some row₀ := by
    rw [persist_all_other l1 store meme.uuid hn1]
    exact hrow
  have hstep : persist_step (persist_all store l1) meme meme.uuid =
      some { template_id := some meme.template_id
             text_box_1 := meme.text_boxes.getD 0 none
             text_box_2 := meme.text_boxes.getD 1 none
             text_box_3 := meme.text_boxes.getD 2 none
             text_box_4 := meme.text_boxes.getD 3 none
             text_box_5 := meme.text_boxes.getD 4 none
             text_box_6 := meme.text_boxes.getD 5 none
             text_box_7 := meme.text_boxes.getD 6 none
             meme_cdn_url :=
               if meme.cdn_url.isSome then meme.cdn_url else row₀.meme_cdn_url } := by
    have htruthy : truthyStr meme.cdn_url = meme.cdn_url.isSome := by
      cases hcu : meme.cdn_url with
      | none => rfl
      | some u =>
        have : u ≠ "" := fun hu => hne (by rw [hcu, hu])
        simp [truthyStr, this]
    unfold persist_step
    rw [hl1]
    simp [htruthy]
  rw [persist_all_other l2 _ meme.uuid hn2]
  exact hstep

/-- Witness for C6: persisting a batch of two slots — one with a cdn
url, one without — leaves the url-less slot's row updated with its
template id and captions while its cdn column keeps the old value. -/
theorem persist_all_spec_witness :
    persist_all demoStore [demoMemeNoCdn, demoMemeCdn] "u1" =
      some { template_id := some 7
             text_box_1 := some "top"
             text_box_2 := some "bottom"
             text_box_3 := none, text_box_4 := none, text_box_5 := none
             text_box_6 := none, text_box_7 := none
             meme_cdn_url := some "https://old.example/img.jpg" } := by
  have h := persist_all_spec demoStore [demoMemeNoCdn, demoMemeCdn] demoMemeNoCdn
    demoRow (by simp) (by decide) (by decide) (by decide)
  rw [show demoMemeNoCdn.uuid = "u1" from rfl] at h
  rw [h]
  decide

/-- A size returned by the descending search fits and lies in
`[MIN_FONT_SIZE, start]`. -/
lemma search_font_some_spec (m : Measure) (text : String) (bw bh : Int) :
    ∀ n s, search_font m text bw bh n = some s →
      fitsAt m text bw bh s = true ∧ MIN_FONT_SIZE ≤ s ∧ s ≤ n := by
  intro n
  induction n with
  | zero => intro s h; simp [search_font] at h
  | succ k ih =>
    intro s h
    rw [search_font] at h
    by_cases hc : k + 1 < MIN_FONT_SIZE
    · simp [hc] at h
    · rw [if_neg hc] at h
      by_cases hfit : fitsAt m text bw bh (k + 1) = true
      · rw [if_pos hfit] at h
        cases h
        refine ⟨hfit, ?_, le_refl _⟩
        simp only [MIN_FONT_SIZE] at hc ⊢
        omega
      · rw [if_neg hfit] at h
        obtain ⟨h1, h2, h3⟩ := ih s h
        exact ⟨h1, h2, by omega⟩

/-- The descending search returns a size at least as large as any
fitting size in range: it tries larger candidates first. -/
lemma search_font_ge (m : Measure) (text : String) (bw bh : Int) :
    ∀ n s, fitsAt m text bw bh s = true → MIN_FONT_SIZE ≤ s → s ≤ n →
      ∃ s₂, search_font m text bw bh n = some s₂ ∧ s ≤ s₂ := by
  intro n
  induction n with
  | zero => intro s _ h10 hle; simp only [MIN_FONT_SIZE] at h10; omega
  | succ k ih =>
    intro s hf h10 hle
    rw [search_font]
    by_cases hc : k + 1 < MIN_FONT_SIZE
    · simp only [MIN_FONT_SIZE] at hc h10; omega
    · rw [if_neg hc]
      by_cases hfit : fitsAt m text bw bh (k + 1) = true
      · exact ⟨k + 1, by rw [if_pos hfit], hle⟩
      · rw [if_neg hfit]
        have hs : s ≤ k := by
          rcases Nat.lt_or_ge s (k + 1) with h | h
          · omega
          · exfalso
            have : s = k + 1 := by omega
            rw [this] at hf
            exact hfit hf
        exact ih s hf h10 hs

/-- The greedy wrap of a word list that is non-empty (or continues a
non-empty current line) produces at least one line. -/
lemma wrapAux_ne_nil (w : String → ℚ) (maxW : ℚ) :
    ∀ (ws : List String) (cur : List String), (ws = [] → cur ≠ []) →
      wrapAux w maxW cur ws ≠ [] := by
  intro ws
  induction ws with
  | nil =>
    intro cur h
    have hcur := h rfl
    simp [wrapAux, hcur]
  | cons word rest ih =>
    intro cur _
    rw [wrapAux]
    by_cases hfit : w (joinWords (cur ++ [word])) ≤ maxW
    · rw [if_pos hfit]
      exact ih (cur ++ [word]) (fun _ => by simp)
    · rw [if_neg hfit]
      by_cases hcur : cur.isEmpty
      · rw [if_pos hcur]
        exact ih [word] (fun _ => by simp)
      · rw [if_neg hcur]
        simp

/-- Appending more words to the input of the greedy wrap never
decreases the number of produced lines, whatever the width measure. -/
lemma wrapAux_length_mono (w : String → ℚ) (maxW : ℚ) :
    ∀ (ws extra cur : List String),
      (wrapAux w maxW cur ws).length ≤ (wrapAux w maxW cur (ws ++ extra)).length := by
  intro ws
  induction ws with
  | nil =>
    intro extra cur
    by_cases hcur : cur.isEmpty
    · simp [wrapAux, hcur]
    · have hne : cur ≠ [] := by simpa [List.isEmpty_iff] using hcur
      have h1 : wrapAux w maxW cur [] = [joinWords cur] := by simp [wrapAux, hcur]
      have h2 : wrapAux w maxW cur ([] ++ extra) ≠ [] :=
        wrapAux_ne_nil w maxW ([] ++ extra) cur (fun _ => hne)
      rw [h1]
      have := List.length_pos.mpr h2
      simpa using this
  | cons word rest ih =>
    intro extra cur
    have happ : (word :: rest) ++ extra = word :: (rest ++ extra) := rfl
    rw [happ, wrapAux, wrapAux]
    by_cases hfit : w (joinWords (cur ++ [word])) ≤ maxW
    · rw [if_pos hfit, if_pos hfit]
      exact ih extra (cur ++ [word])
    · rw [if_neg hfit, if_neg hfit]
      by_cases hcur : cur.isEmpty
      · rw [if_pos hcur, if_pos hcur]
        exact ih extra [word]
      · rw [if_neg hcur, if_neg hcur]
        simpa using ih extra [word]

/-- Summing a constant-valued map counts the list length. -/
lemma map_const_sum (f : String → ℚ) (H : ℚ) (hf : ∀ l, f l = H) :
    ∀ lines : List String, (lines.map f).sum = lines.length * H := by
  intro lines
  induction lines with
  | nil => simp
  | cons a t ih =>
    simp only [List.map_cons, List.sum_cons, ih, hf a, List.length_cons]
    push_cast
    ring

/-- The last element of a constant-valued map is the constant. -/
lemma map_const_getLastD (f : String → ℚ) (H : ℚ) (hf : ∀ l, f l = H) :
    ∀ lines : List String, lines ≠ [] → (lines.map f).getLastD 0 = H := by
  intro lines
  induction lines with
  | nil => intro h; exact absurd rfl h
  | cons a t ih =>
    intro _
    cases t with
    | nil => simp [hf a]
    | cons b t2 =>
      have := ih (by simp)
      simpa [List.getLastD_cons] using this

/-- With a height measure that is constant at each font size, the
computed total height only depends on the number of wrapped lines. -/
lemma total_height_const (m : Measure) (s : Nat) (H : ℚ)
    (hf : ∀ l, m.lineH s l = H) (lines : List String) :
    total_height m s lines =
      if 1 < lines.length then
        lines.length * H + ((lines.length : ℚ) - 1) * (H * (1 / 5))
      else lines.length * H := by
  unfold total_height
  by_cases h : 1 < lines.length
  · have hne : lines ≠ [] := by
      cases lines with
      | nil => simp at h
      | cons a t => simp
    rw [if_pos h, if_pos h, map_const_sum (m.lineH s) H hf lines,
      map_const_getLastD (m.lineH s) H hf lines hne]
  · rw [if_neg h, if_neg h, map_const_sum (m.lineH s) H hf lines]

/-- With constant nonnegative heights, more lines never take less
vertical space. -/
lemma total_height_mono_of_const (m : Measure) (s : Nat) (H : ℚ) (hH0 : 0 ≤ H)
    (hf : ∀ l, m.lineH s l = H) (L1 L2 : List String)
    (hlen : L1.length ≤ L2.length) :
    total_height m s L1 ≤ total_height m s L2 := by
  rw [total_height_const m s H hf L1, total_height_const m s H hf L2]
  have hc : (L1.length : ℚ) ≤ (L2.length : ℚ) := by exact_mod_cast hlen
  by_cases h1 : 1 < L1.length <;> by_cases h2 : 1 < L2.length
  · rw [if_pos h1, if_pos h2]
    have h1q : (1 : ℚ) ≤ (L1.length : ℚ) := by
      have : (1 : ℕ) ≤ L1.length := by omega
      exact_mod_cast this
    nlinarith
  · omega
  · rw [if_neg h1, if_pos h2]
    have h2q : (1 : ℚ) ≤ (L2.length : ℚ) := by
      have : (1 : ℕ) ≤ L2.length := by omega
      exact_mod_cast this
    nlinarith
  · rw [if_neg h1, if_neg h2]
    nlinarith

/-- Under a per-size-constant nonnegative height measure, if an
extended caption fits in the box at some size, the original caption
fits there too. -/
lemma fitsAt_mono (m : Measure)
    (hH : ∀ s l l', m.lineH s l = m.lineH s l')
    (hH0 : ∀ s l, 0 ≤ m.lineH s l) (bw bh : Int) (t1 t2 : String)
    (extra : List String) (hext : wordsOf t2 = wordsOf t1 ++ extra) (s : Nat)
    (h2 : fitsAt m t2 bw bh s = true) : fitsAt m t1 bw bh s = true := by
  simp only [fitsAt, decide_eq_true_eq] at h2 ⊢
  have hlen : (wrap_text m s (bw : ℚ) t1).length ≤ (wrap_text m s (bw : ℚ) t2).length := by
    unfold wrap_text
    rw [hext]
    exact wrapAux_length_mono (m.lineW s) (bw : ℚ) (wordsOf t1) extra []
  have hth : total_height m s (wrap_text m s (bw : ℚ) t1) ≤
      total_height m s (wrap_text m s (bw : ℚ) t2) :=
    total_height_mono_of_const m s (m.lineH s "") (hH0 s "")
      (fun l => hH s l "") _ _ hlen
  have hmul : total_height m s (wrap_text m s (bw : ℚ) t1) * (6 / 5) ≤
      total_height m s (wrap_text m s (bw : ℚ) t2) * (6 / 5) := by
    have h65 : (0 : ℚ) ≤ 6 / 5 := by norm_num
    exact mul_le_mul_of_nonneg_right hth h65
  exact le_trans hmul h2

/-- The wrapped-line component of the chosen font is the greedy wrap of
a caption with at least one word, hence non-empty. -/
lemma calculate_optimal_font_lines_ne_nil (m : Measure) (text : String)
    (bw bh : Int) (maxFont : Nat) (hw : wordsOf text ≠ []) :
    (calculate_optimal_font m text bw bh maxFont).2.1 ≠ [] := by
  unfold calculate_optimal_font
  rcases hs : search_font m text bw bh maxFont with _ | s₀ <;>
    · show wrapAux _ _ [] (wordsOf text) ≠ []
      exact wrapAux_ne_nil _ _ (wordsOf text) [] (fun h => (hw h).elim)

/-- Rendering a caption with at least one word never hits the
empty-line-list failure: `text_lines[0]` exists. -/
lemma render_outlined_text_ok (m : Measure) (text : String) (x y bw bh : Int)
    (hw : wordsOf text ≠ []) :
    ∃ out, render_outlined_text m text (x, y) (bw, bh) = .ok out := by
  unfold render_outlined_text
  dsimp only
  have hne := calculate_optimal_font_lines_ne_nil m text bw bh MAX_FONT_SIZE hw
  rcases hl : (calculate_optimal_font m text bw bh MAX_FONT_SIZE).2.1 with _ | ⟨a, as⟩
  · exact absurd hl hne
  · exact ⟨_, rfl⟩

/-- Claim C4 (amended: the fallback is render-safe for captions with at
least one word; a whitespace-only caption that reaches the fallback
fails the render): the chosen size is the largest size in
`[MIN_FONT_SIZE, MAX_FONT_SIZE]` whose greedily wrapped text passes the
box-height test; the returned lines are the greedy wrap at the chosen
size; when no size in range fits the computation falls back to the
fixed `MIN_FALLBACK_FONT_SIZE` with total height 0; and for a caption
containing at least one word, the render never fails. -/
theorem calculate_optimal_font_spec (m : Measure) (text : String) (bw bh : Int) :
    (∀ s, MIN_FONT_SIZE ≤ s → s ≤ MAX_FONT_SIZE → fitsAt m text bw bh s = true →
      fitsAt m text bw bh (calculate_optimal_font m text bw bh MAX_FONT_SIZE).1 = true ∧
      s ≤ (calculate_optimal_font m text bw bh MAX_FONT_SIZE).1 ∧
      MIN_FONT_SIZE ≤ (calculate_optimal_font m text bw bh MAX_FONT_SIZE).1 ∧
      (calculate_optimal_font m text bw bh MAX_FONT_SIZE).1 ≤ MAX_FONT_SIZE) ∧
    ((∀ s, MIN_FONT_SIZE ≤ s → s ≤ MAX_FONT_SIZE → fitsAt m text bw bh s = false) →
      (calculate_optimal_font m text bw bh MAX_FONT_SIZE).1 = MIN_FALLBACK_FONT_SIZE ∧
      (calculate_optimal_font m text bw bh MAX_FONT_SIZE).2.2 = 0) ∧
    ((calculate_optimal_font m text bw bh MAX_FONT_SIZE).2.1 =
      wrap_text m (calculate_optimal_font m text bw bh MAX_FONT_SIZE).1 (bw : ℚ) text) ∧
    (∀ x y : Int, wordsOf text ≠ [] →
      ∃ out, render_outlined_text m text (x, y) (bw, bh) = .ok out) := by
  rcases hs : search_font m text bw bh MAX_FONT_SIZE with _ | s₀
  · refine ⟨?_, ?_, ?_, ?_⟩
    · intro s h10 h200 hf
      obtain ⟨s₂, hs₂, _⟩ := search_font_ge m text bw bh MAX_FONT_SIZE s hf h10 h200
      rw [hs] at hs₂
      cases hs₂
    · intro _
      simp [calculate_optimal_font, hs]
    · simp [calculate_optimal_font, hs]
    · intro x y hw
      exact render_outlined_text_ok m text x y bw bh hw
  · obtain ⟨hfit₀, h10₀, h200₀⟩ := search_font_some_spec m text bw bh MAX_FONT_SIZE s₀ hs
    refine ⟨?_, ?_, ?_, ?_⟩
    · intro s h10 h200 hf
      obtain ⟨s₂, hs₂, hle₂⟩ := search_font_ge m text bw bh MAX_FONT_SIZE s hf h10 h200
      rw [hs] at hs₂
      cases hs₂
      simp only [calculate_optimal_font, hs]
      exact ⟨hfit₀, hle₂, h10₀, h200₀⟩
    · intro hall
      have := hall s₀ h10₀ h200₀
      rw [this] at hfit₀
      cases hfit₀
    · simp [calculate_optimal_font, hs]
    · intro x y hw
      exact render_outlined_text_ok m text x y bw bh hw

/-- Counterexample to C4 as stated: under the concrete metric `mDemo`,
the whitespace-only caption of a single space in a box of height `-1`
makes every size in range fail the fit test, so the fallback is taken —
and the render then fails on the empty wrapped-line list
(`text_lines[0]` raises IndexError), contradicting "this fallback path
never fails the render for any caption". -/
theorem calculate_optimal_font_fallback_counterexample :
    search_font mDemo " " 5 (-1) MAX_FONT_SIZE = none ∧
    calculate_optimal_font mDemo " " 5 (-1) MAX_FONT_SIZE =
      (MIN_FALLBACK_FONT_SIZE, [], 0) ∧
    (render_outlined_text mDemo " " (0, 0) (5, -1)).isOk = false := by
  with_unfolding_all decide

/-- Witness for C4: for the one-word caption `"hello"` in a 1000x1000
box under `mDemo`, size 200 fits, so the chosen size is 200 (the
maximum), and the render succeeds. -/
theorem calculate_optimal_font_spec_witness :
    fitsAt mDemo "hello" 1000 1000
      (calculate_optimal_font mDemo "hello" 1000 1000 MAX_FONT_SIZE).1 = true ∧
    200 ≤ (calculate_optimal_font mDemo "hello" 1000 1000 MAX_FONT_SIZE).1 ∧
    (∃ out, render_outlined_text mDemo "hello" (0, 0) (1000, 1000) = .ok out) := by
  have h := calculate_optimal_font_spec mDemo "hello" 1000 1000
  have h200 := h.1 200 (by decide) (by decide) (by with_unfolding_all decide)
  exact ⟨h200.1, h200.2.1, h.2.2.2 0 0 (by decide)⟩

/-- Claim C9 (amended — both restrictions are forced by the
counterexample): monotonicity requires (a) that the longer caption not
take the fallback path, since the fallback size 40 exceeds
search-chosen sizes down to 10, and (b) a height metric under which all
lines at a given font size measure one (nonnegative) height, since with
content-dependent heights the inter-line gap, computed from the LAST
line's height, can shrink when a short extra line is appended.  Under
those two conditions, for a fixed box, if the longer caption extends
the shorter one word-wise then the size chosen for the longer caption
never exceeds the size chosen for the shorter one. -/
theorem font_size_monotone (m : Measure)
    (hH : ∀ s l l', m.lineH s l = m.lineH s l')
    (hH0 : ∀ s l, 0 ≤ m.lineH s l)
    (bw bh : Int) (t1 t2 : String) (extra : List String)
    (hext : wordsOf t2 = wordsOf t1 ++ extra)
    (hfit : ∃ s, MIN_FONT_SIZE ≤ s ∧ s ≤ MAX_FONT_SIZE ∧
      fitsAt m t2 bw bh s = true) :
    (calculate_optimal_font m t2 bw bh MAX_FONT_SIZE).1 ≤
      (calculate_optimal_font m t1 bw bh MAX_FONT_SIZE).1 := by
  obtain ⟨s, h10, h200, hf2⟩ := hfit
  obtain ⟨s₂, hs₂, _⟩ := search_font_ge m t2 bw bh MAX_FONT_SIZE s hf2 h10 h200
  obtain ⟨hfit₂, h10₂, h200₂⟩ := search_font_some_spec m t2 bw bh MAX_FONT_SIZE s₂ hs₂
  have hf1 : fitsAt m t1 bw bh s₂ = true :=
    fitsAt_mono m hH hH0 bw bh t1 t2 extra hext s₂ hfit₂
  obtain ⟨s₁, hs₁, hle₁⟩ := search_font_ge m t1 bw bh MAX_FONT_SIZE s₂ hf1 h10₂ h200₂
  simp only [calculate_optimal_font, hs₂, hs₁]
  exact hle₁

/-- Counterexample to C9 as stated, in both of its failure modes.
Fallback mode: under `mDemo` (heights constant per font size) in a box
of width 5 and height 24, the caption `"a"` is chosen size 20 by the
search, while its extension `"a b"` fits at no size in range and takes
the fallback size 40 — strictly larger.  Search mode, no fallback
involved: under `mVar` (content-dependent line heights, as `textbbox`
reports them) in a box of width 5 and height 100, the caption `"g g"`
is chosen size 37 while its extension `"g g ."` is chosen size 38, both
returned by the search — the appended short last line (`"."`) shrinks
the inter-line gap term, which is `(n-1) * 0.2 *` (LAST line's height),
so the longer caption's computed total height is smaller and it fits at
a strictly larger size. -/
theorem font_size_monotone_counterexample :
    (wordsOf "a b" = wordsOf "a" ++ ["b"] ∧
     (calculate_optimal_font mDemo "a" 5 24 MAX_FONT_SIZE).1 = 20 ∧
     (calculate_optimal_font mDemo "a b" 5 24 MAX_FONT_SIZE).1 = 40 ∧
     ¬((calculate_optimal_font mDemo "a b" 5 24 MAX_FONT_SIZE).1 ≤
       (calculate_optimal_font mDemo "a" 5 24 MAX_FONT_SIZE).1)) ∧
    (wordsOf "g g ." = wordsOf "g g" ++ ["."] ∧
     search_font mVar "g g" 5 100 MAX_FONT_SIZE = some 37 ∧
     search_font mVar "g g ." 5 100 MAX_FONT_SIZE = some 38 ∧
     (calculate_optimal_font mVar "g g" 5 100 MAX_FONT_SIZE).1 = 37 ∧
     (calculate_optimal_font mVar "g g ." 5 100 MAX_FONT_SIZE).1 = 38 ∧
     ¬((calculate_optimal_font mVar "g g ." 5 100 MAX_FONT_SIZE).1 ≤
       (calculate_optimal_font mVar "g g" 5 100 MAX_FONT_SIZE).1)) := by
  with_unfolding_all decide

/-- Witness for C9: in a 1000x1000 box under `mDemo`, `"a b"` extends
`"a"` and fits at size 200, so its chosen size does not exceed the one
chosen for `"a"`. -/
theorem font_size_monotone_witness :
    (calculate_optimal_font mDemo "a b" 1000 1000 MAX_FONT_SIZE).1 ≤
      (calculate_optimal_font mDemo "a" 1000 1000 MAX_FONT_SIZE).1 :=
  font_size_monotone mDemo (fun _ _ _ => rfl) (fun s _ => Nat.cast_nonneg s)
    1000 1000 "a" "a b" ["b"] (by decide)
    ⟨200, by decide, by decide, by with_unfolding_all decide⟩

end Memeulacra
